import Mathlib

/-
Verification of the lumper VMM (virt-do/lumper) against its specification.

The Rust sources are shallowly embedded: machine integers become Nat with
explicit `% 2 ^ w` or masking where wrap-around or bitwise complement
matters, fallible operations return Except, and the externally visible
actions of the device paths (used-ring appends, interrupt-status stores,
irq eventfd writes) are recorded as explicit event traces.  Results of
calls into the host (KVM, the TAP fd, eventfds, guest-memory accessors of
the vm-memory crate) are passed in as environment parameters, so that each
control path of the source is represented exactly.
-/

namespace Lumper

/-- Width modulus of a host usize / u64 (x86_64). -/
def USIZE_MOD : Nat := 2 ^ 64

/-- Width modulus of a u32. -/
def U32_MOD : Nat := 2 ^ 32

/- ------------------------------------------------------------------
   Boot parameters and the e820 table (src/src/vmm/src/kernel.rs)
   ------------------------------------------------------------------ -/

/-- Error variants of vmm::Error (src/src/vmm/src/lib.rs) reachable from the
kernel/bootparams code modelled here, plus the initramfs variants used by
kernel.rs. -/
inductive VmmError
  | E820Configuration
  | HimemStartPastMemEnd
  | InitramfsAddress
  | InitramfsLoad
  deriving DecidableEq, Repr

/-- One slot of boot_params.e820_table (linux-loader boot_e820_entry): guest
physical address, size in bytes, and region type. -/
structure BootE820Entry where
  addr : Nat
  size : Nat
  type_ : Nat
  deriving DecidableEq, Repr

/-- The fields of the linux-loader boot_params zero page that kernel.rs
writes.  The Rust struct holds e820_table as a fixed array of 128 entries
with e820_entries counting the filled prefix; since add_e820_entry only ever
writes index e820_entries and then increments the counter, we carry the
filled prefix as a list next to the counter. -/
structure BootParamsM where
  boot_flag : Nat
  header : Nat
  kernel_alignment : Nat
  type_of_loader : Nat
  cmd_line_ptr : Nat
  cmdline_size : Nat
  e820_entries : Nat
  e820_table : List BootE820Entry
  deriving DecidableEq, Repr

/-- boot_params::default(): an all-zero zero page. -/
def bootParamsDefault : BootParamsM :=
  { boot_flag := 0, header := 0, kernel_alignment := 0, type_of_loader := 0,
    cmd_line_ptr := 0, cmdline_size := 0, e820_entries := 0, e820_table := [] }

/-- KERNEL_BOOT_FLAG_MAGIC (kernel.rs). -/
def KERNEL_BOOT_FLAG_MAGIC : Nat := 0xaa55

/-- KERNEL_HDR_MAGIC (kernel.rs). -/
def KERNEL_HDR_MAGIC : Nat := 0x53726448

/-- KERNEL_LOADER_OTHER (kernel.rs). -/
def KERNEL_LOADER_OTHER : Nat := 0xff

/-- KERNEL_MIN_ALIGNMENT_BYTES (kernel.rs). -/
def KERNEL_MIN_ALIGNMENT_BYTES : Nat := 0x01000000

/-- EBDA_START (kernel.rs). -/
def EBDA_START : Nat := 0x0009fc00

/-- E820_RAM (kernel.rs). -/
def E820_RAM : Nat := 1

/-- HIMEM_START (kernel.rs): 1 MiB. -/
def HIMEM_START : Nat := 0x00100000

/-- CMDLINE_START (kernel.rs). -/
def CMDLINE_START : Nat := 0x00020000

/-- Capacity of boot_params.e820_table: params.e820_table.len() in the Rust
bindgen struct is 128. -/
def E820_TABLE_CAPACITY : Nat := 128

/-- add_e820_entry (kernel.rs): refuse when the table is full, otherwise
write the next slot and bump the counter. -/
def add_e820_entry (params : BootParamsM) (addr size mem_type : Nat) :
    Except VmmError BootParamsM :=
  if params.e820_entries ≥ E820_TABLE_CAPACITY then
    .error .E820Configuration
  else
    .ok { params with
          e820_table := params.e820_table ++ [⟨addr, size, mem_type⟩],
          e820_entries := params.e820_entries + 1 }

/-- guest_memory.last_addr() for the single region [0, mem_size) that
VMM::configure_memory registers: the address of the last byte. -/
def lastAddr (mem_size : Nat) : Nat := mem_size - 1

/-- vm-memory Address::checked_offset_from: checked subtraction. -/
def checkedOffsetFrom (addr base : Nat) : Option Nat :=
  if base ≤ addr then some (addr - base) else none

/-- build_bootparams (kernel.rs): set the header magics, add the EBDA RAM
entry, then add the high-memory RAM entry whose size is the offset of
guest_memory.last_addr() from himem_start (failing with
HimemStartPastMemEnd when last_addr is below himem_start). -/
def build_bootparams (mem_size : Nat) : Except VmmError BootParamsM := do
  let params := { bootParamsDefault with
    boot_flag := KERNEL_BOOT_FLAG_MAGIC,
    header := KERNEL_HDR_MAGIC,
    kernel_alignment := KERNEL_MIN_ALIGNMENT_BYTES,
    type_of_loader := KERNEL_LOADER_OTHER }
  let params ← add_e820_entry params 0 EBDA_START E820_RAM
  let off ← match checkedOffsetFrom (lastAddr mem_size) HIMEM_START with
    | some o => Except.ok o
    | none => Except.error VmmError.HimemStartPastMemEnd
  add_e820_entry params HIMEM_START off E820_RAM

/-- The boot_params header assignments kernel_setup (kernel.rs) performs
after build_bootparams: cmd_line_ptr := CMDLINE_START as u32 and
cmdline_size := cmdline.as_str().len() as u32 + 1, in u32 arithmetic.
cmdline_len is the byte length of the command line without terminator. -/
def kernel_setup_header (mem_size cmdline_len : Nat) : Except VmmError BootParamsM := do
  let bp ← build_bootparams mem_size
  .ok { bp with
        cmd_line_ptr := CMDLINE_START % U32_MOD,
        cmdline_size := (cmdline_len % U32_MOD + 1) % U32_MOD }

/- ------------------------------------------------------------------
   Initramfs loading (src/src/vmm/src/kernel.rs, load_initramfs)
   ------------------------------------------------------------------ -/

/-- Modelled from the spec: pagesize() comes from the crate root, which is
not under src/; the spec fixes the target to x86_64 hosts, whose page size
is 4096, and asks for alignment down to a page boundary. -/
def pagesize : Nat := 4096

/-- InitramfsConfig (crate root): load address and byte size. -/
structure InitramfsConfig where
  address : Nat
  size : Nat
  deriving DecidableEq, Repr

/-- load_initramfs (kernel.rs), with the file I/O resolved: size is the
byte size of the initramfs file, lowmem_size the length of the first (and
only) guest memory region.  The source rejects only lowmem_size < size and
otherwise aligns lowmem_size - size down with the usize mask
!(pagesize() - 1) = 2^64 - pagesize. -/
def load_initramfs (lowmem_size size : Nat) : Except VmmError InitramfsConfig :=
  if lowmem_size < size then
    .error .InitramfsAddress
  else
    .ok { address := Nat.land (lowmem_size - size) (USIZE_MOD - pagesize), size := size }

/- ------------------------------------------------------------------
   Shared lemmas
   ------------------------------------------------------------------ -/

/-- Bitwise and with zero on the left, stated on Nat.land. -/
theorem land_zero_left (n : Nat) : Nat.land 0 n = 0 :=
  Nat.zero_and n

/-- Full evaluation of build_bootparams when guest memory reaches past
HIMEM_START, shared by the bootparams theorems below. -/
theorem build_bootparams_eq (mem_size : Nat) (h : HIMEM_START < mem_size) :
    build_bootparams mem_size =
      Except.ok { boot_flag := KERNEL_BOOT_FLAG_MAGIC, header := KERNEL_HDR_MAGIC,
                  kernel_alignment := KERNEL_MIN_ALIGNMENT_BYTES,
                  type_of_loader := KERNEL_LOADER_OTHER,
                  cmd_line_ptr := 0, cmdline_size := 0,
                  e820_entries := 2,
                  e820_table := [⟨0, EBDA_START, E820_RAM⟩,
                                 ⟨HIMEM_START, mem_size - 1 - HIMEM_START, E820_RAM⟩] } := by
  have h1 : HIMEM_START ≤ lastAddr mem_size := by
    unfold HIMEM_START lastAddr
    unfold HIMEM_START at h
    omega
  unfold build_bootparams checkedOffsetFrom
  rw [if_pos h1]
  simp only [add_e820_entry, E820_TABLE_CAPACITY, bootParamsDefault, lastAddr, bind,
    Except.bind]
  norm_num

/- ------------------------------------------------------------------
   Claim C3: the e820 table built by build_bootparams
   ------------------------------------------------------------------ -/

/-- C3 (counterexample): at mem_size = 2 MiB the e820 table holds exactly two
RAM entries, but the second entry has size 0xfffff = mem_size - 0x100000 - 1,
not mem_size - 0x100000 as the claim states. -/
theorem e820_second_size_not_mem_minus_himem :
    Except.map BootParamsM.e820_table (build_bootparams (2 ^ 21)) =
      Except.ok [⟨0, 0x0009fc00, 1⟩, ⟨0x00100000, 0xfffff, 1⟩] ∧
    (0xfffff : Nat) ≠ 2 ^ 21 - 0x00100000 := by
  refine ⟨by rfl, by decide⟩

/-- C3 (amended): for every guest memory size that reaches past HIMEM_START,
build_bootparams populates the e820 table with exactly the two RAM entries
(addr 0, size 0x9FC00) and (addr 0x100000, size mem_size - 0x100000 - 1);
the second size is the offset of the last guest address (mem_size - 1) from
0x100000, one byte short of mem_size - 0x100000. -/
theorem build_bootparams_e820_layout (mem_size : Nat) (h : HIMEM_START < mem_size) :
    Except.map BootParamsM.e820_table (build_bootparams mem_size) =
      Except.ok [⟨0, EBDA_START, E820_RAM⟩,
                 ⟨HIMEM_START, mem_size - 1 - HIMEM_START, E820_RAM⟩] := by
  rw [build_bootparams_eq mem_size h]
  rfl

/-- Witness for C3 at mem_size = 2 ^ 21. -/
theorem build_bootparams_e820_layout_witness :
    HIMEM_START < 2 ^ 21 ∧
    Except.map BootParamsM.e820_table (build_bootparams (2 ^ 21)) =
      Except.ok [⟨0, EBDA_START, E820_RAM⟩,
                 ⟨HIMEM_START, 2 ^ 21 - 1 - HIMEM_START, E820_RAM⟩] :=
  ⟨by decide, build_bootparams_e820_layout (2 ^ 21) (by decide)⟩

/- ------------------------------------------------------------------
   Claim C4: initramfs size boundary
   ------------------------------------------------------------------ -/

/-- C4 (counterexample): an initramfs of exactly mem_size bytes is not
rejected; load_initramfs accepts it and loads it at page-aligned address 0,
because the source only rejects lowmem_size < size. -/
theorem load_initramfs_equal_size_accepted :
    load_initramfs 0x00100000 0x00100000 = Except.ok ⟨0, 0x00100000⟩ := by rfl

/-- C4 (amended): load_initramfs fails with the initramfs error exactly when
the initramfs is strictly larger than guest memory; an initramfs of exactly
mem_size bytes and one of mem_size - 1 bytes are both loaded at page-aligned
address 0. -/
theorem load_initramfs_fit (m s : Nat) (h : 0 < m) :
    (load_initramfs m s = Except.error VmmError.InitramfsAddress ↔ m < s) ∧
    load_initramfs m m = Except.ok ⟨0, m⟩ ∧
    load_initramfs m (m - 1) = Except.ok ⟨0, m - 1⟩ := by
  unfold load_initramfs
  refine ⟨?_, ?_, ?_⟩
  · by_cases hs : m < s
    · rw [if_pos hs]
      simp [hs]
    · rw [if_neg hs]
      simp [hs]
  · rw [if_neg (lt_irrefl m)]
    rw [Nat.sub_self, land_zero_left]
  · rw [if_neg (by omega : ¬ m < m - 1)]
    have h1 : m - (m - 1) = 1 := by omega
    rw [h1]
    norm_num [show Nat.land 1 (USIZE_MOD - pagesize) = 0 by decide]

/-- Witness for C4 at m = 4096, s = 4095. -/
theorem load_initramfs_fit_witness :
    0 < 4096 ∧
    ((load_initramfs 4096 4095 = Except.error VmmError.InitramfsAddress ↔ 4096 < 4095) ∧
     load_initramfs 4096 4096 = Except.ok ⟨0, 4096⟩ ∧
     load_initramfs 4096 (4096 - 1) = Except.ok ⟨0, 4096 - 1⟩) :=
  ⟨by decide, load_initramfs_fit 4096 4095 (by decide)⟩

/- ------------------------------------------------------------------
   Claim C8: cmdline header fields written by kernel_setup
   ------------------------------------------------------------------ -/

/-- C8 (confirmed): for every command line of byte length at most 4095 and
every guest memory size past HIMEM_START, kernel_setup stores
cmdline_size = length + 1 and cmd_line_ptr = 0x20000 in the boot_params
header. -/
theorem kernel_setup_header_cmdline (mem_size n : Nat) (hm : HIMEM_START < mem_size)
    (hn : n ≤ 4095) :
    Except.map (fun bp => (bp.cmd_line_ptr, bp.cmdline_size)) (kernel_setup_header mem_size n) =
      Except.ok (0x00020000, n + 1) := by
  unfold kernel_setup_header
  rw [build_bootparams_eq mem_size hm]
  have h1 : n % U32_MOD = n := Nat.mod_eq_of_lt (by unfold U32_MOD; omega)
  have h2 : (n + 1) % U32_MOD = n + 1 := Nat.mod_eq_of_lt (by unfold U32_MOD; omega)
  simp only [bind, Except.bind, Except.map, CMDLINE_START, U32_MOD]
  have h3 : (n % 2 ^ 32 + 1) % 2 ^ 32 = n + 1 := by omega
  rw [h3]
  norm_num

/-- Witness for C8 at mem_size = 2 ^ 21, n = 49 (the default command line
length). -/
theorem kernel_setup_header_cmdline_witness :
    HIMEM_START < 2 ^ 21 ∧ (49 : Nat) ≤ 4095 ∧
    Except.map (fun bp => (bp.cmd_line_ptr, bp.cmdline_size)) (kernel_setup_header (2 ^ 21) 49) =
      Except.ok (0x00020000, 50) :=
  ⟨by decide, by decide, kernel_setup_header_cmdline (2 ^ 21) 49 (by decide) (by decide)⟩

/- ------------------------------------------------------------------
   TAP interface name validation (src/src/vmm/src/config/mod.rs,
   src/src/vmm/src/devices/net/tap.rs, src/src/vmm/src/devices/tap.rs)
   ------------------------------------------------------------------ -/

/-- IFACE_NAME_MAX_LEN, identical in config/mod.rs and devices/net/tap.rs
(Linux IFNAMSIZ, terminator included). -/
def IFACE_NAME_MAX_LEN : Nat := 16

/-- config::Error::TapConfig (config/mod.rs); the message string is
elided. -/
inductive ConfigError
  | TapConfig
  deriving DecidableEq, Repr

/-- VirtioNetError variants (devices/net/mod.rs) produced by the code
modelled here. -/
inductive VirtioNetError
  | InvalidIfname
  deriving DecidableEq, Repr

/-- devices::Error variant produced by devices/tap.rs; the message string is
elided. -/
inductive TapError
  | InvalidTapLength
  deriving DecidableEq, Repr

/-- NetConfig::try_from (config/mod.rs): reject names whose byte length
reaches IFACE_NAME_MAX_LEN.  Strings are modelled as their UTF-8 byte
lists. -/
def netconfig_try_from (tap_str : List Nat) : Except ConfigError (List Nat) :=
  if tap_str.length ≥ IFACE_NAME_MAX_LEN then .error .TapConfig
  else .ok tap_str

/-- build_terminated_if_name (devices/net/tap.rs): reject names whose byte
length reaches IFACE_NAME_MAX_LEN, otherwise copy into a zeroed 16-byte
array. -/
def build_terminated_if_name (if_name : List Nat) : Except VirtioNetError (List Nat) :=
  if if_name.length ≥ IFACE_NAME_MAX_LEN then .error .InvalidIfname
  else .ok (if_name ++ List.replicate (IFACE_NAME_MAX_LEN - if_name.length) 0)

/-- terminated_if_name (devices/tap.rs): reject only names whose byte length
exceeds IFACE_NAME_MAX_LEN (note the strict >, unlike the two validators
above), otherwise copy into a zeroed 16-byte array. -/
def terminated_if_name (if_name : List Nat) : Except TapError (List Nat) :=
  if if_name.length > IFACE_NAME_MAX_LEN then .error .InvalidTapLength
  else .ok (if_name ++ List.replicate (IFACE_NAME_MAX_LEN - if_name.length) 0)

/-- C9: a 15-byte name is accepted by every validator, and a 16-byte name is
rejected by NetConfig::try_from and by build_terminated_if_name, but
terminated_if_name (devices/tap.rs) accepts it and returns a 16-byte array
that holds no NUL terminator, contradicting the claim (and the function
doc, which promises a null-terminated C string). -/
theorem tap_name_16_not_rejected_everywhere :
    netconfig_try_from (List.replicate 15 97) = Except.ok (List.replicate 15 97) ∧
    (build_terminated_if_name (List.replicate 15 97)).isOk = true ∧
    (terminated_if_name (List.replicate 15 97)).isOk = true ∧
    netconfig_try_from (List.replicate 16 97) = Except.error ConfigError.TapConfig ∧
    build_terminated_if_name (List.replicate 16 97) = Except.error VirtioNetError.InvalidIfname ∧
    terminated_if_name (List.replicate 16 97) = Except.ok (List.replicate 16 97) ∧
    0 ∉ List.replicate 16 97 := by
  refine ⟨by rfl, by rfl, by rfl, by rfl, by rfl, by rfl, by decide⟩

/- ------------------------------------------------------------------
   Virtio-net advertised features (src/src/vmm/src/devices/net/mod.rs
   and the unused duplicate src/src/vmm/src/devices/net.rs)
   ------------------------------------------------------------------ -/

/-- VIRTIO_NET_F_CSUM (virtio-bindings crate, Linux UAPI). -/
def VIRTIO_NET_F_CSUM : Nat := 0

/-- VIRTIO_NET_F_GUEST_CSUM (virtio-bindings crate, Linux UAPI). -/
def VIRTIO_NET_F_GUEST_CSUM : Nat := 1

/-- VIRTIO_NET_F_GUEST_TSO4 (virtio-bindings crate, Linux UAPI). -/
def VIRTIO_NET_F_GUEST_TSO4 : Nat := 7

/-- VIRTIO_NET_F_GUEST_TSO6 (virtio-bindings crate, Linux UAPI). -/
def VIRTIO_NET_F_GUEST_TSO6 : Nat := 8

/-- VIRTIO_NET_F_GUEST_UFO (virtio-bindings crate, Linux UAPI). -/
def VIRTIO_NET_F_GUEST_UFO : Nat := 10

/-- VIRTIO_NET_F_HOST_TSO4 (virtio-bindings crate, Linux UAPI). -/
def VIRTIO_NET_F_HOST_TSO4 : Nat := 11

/-- VIRTIO_NET_F_HOST_TSO6 (virtio-bindings crate, Linux UAPI). -/
def VIRTIO_NET_F_HOST_TSO6 : Nat := 12

/-- VIRTIO_NET_F_HOST_UFO (virtio-bindings crate, Linux UAPI). -/
def VIRTIO_NET_F_HOST_UFO : Nat := 14

/-- Modelled from the spec: bindings::VIRTIO_F_VERSION_1 lives in
devices/net/bindings.rs, which is not under src/; the spec names the
VERSION_1 feature of virtio 1.0, whose standard bit is 32. -/
def VIRTIO_F_VERSION_1 : Nat := 32

/-- Modelled from the spec: devices::features::VIRTIO_F_RING_EVENT_IDX is
not under src/; the spec names the virtio RING_EVENT_IDX feature, whose
standard bit is 29. -/
def VIRTIO_F_RING_EVENT_IDX : Nat := 29

/-- Modelled from the spec: devices::features::VIRTIO_F_IN_ORDER is not
under src/; the spec names the virtio IN_ORDER feature, whose standard bit
is 35. -/
def VIRTIO_F_IN_ORDER : Nat := 35

/-- VIRTIO_FEATURES (devices/net/mod.rs): the feature word of the VirtioNet
device that lib.rs instantiates. -/
def VIRTIO_FEATURES : Nat :=
  (1 <<< VIRTIO_F_VERSION_1)
    ||| (1 <<< VIRTIO_NET_F_CSUM)
    ||| (1 <<< VIRTIO_NET_F_GUEST_CSUM)
    ||| (1 <<< VIRTIO_NET_F_HOST_TSO4)
    ||| (1 <<< VIRTIO_NET_F_HOST_TSO6)
    ||| (1 <<< VIRTIO_NET_F_HOST_UFO)
    ||| (1 <<< VIRTIO_NET_F_GUEST_TSO4)
    ||| (1 <<< VIRTIO_NET_F_GUEST_TSO6)
    ||| (1 <<< VIRTIO_NET_F_GUEST_UFO)

/-- device_features (devices/net.rs, Net::new): the feature word of the
unused duplicate Net device, which does include RING_EVENT_IDX and
IN_ORDER. -/
def net_rs_device_features : Nat :=
  (1 <<< VIRTIO_F_VERSION_1)
    ||| (1 <<< VIRTIO_F_RING_EVENT_IDX)
    ||| (1 <<< VIRTIO_F_IN_ORDER)
    ||| (1 <<< VIRTIO_NET_F_CSUM)
    ||| (1 <<< VIRTIO_NET_F_GUEST_CSUM)
    ||| (1 <<< VIRTIO_NET_F_GUEST_TSO4)
    ||| (1 <<< VIRTIO_NET_F_GUEST_TSO6)
    ||| (1 <<< VIRTIO_NET_F_GUEST_UFO)
    ||| (1 <<< VIRTIO_NET_F_HOST_TSO4)
    ||| (1 <<< VIRTIO_NET_F_HOST_TSO6)
    ||| (1 <<< VIRTIO_NET_F_HOST_UFO)

/-- C5 (counterexample): the active device feature word VIRTIO_FEATURES has
neither RING_EVENT_IDX (bit 29) nor IN_ORDER (bit 35) set. -/
theorem virtio_features_missing_event_idx_in_order :
    Nat.testBit VIRTIO_FEATURES VIRTIO_F_RING_EVENT_IDX = false ∧
    Nat.testBit VIRTIO_FEATURES VIRTIO_F_IN_ORDER = false := by
  refine ⟨by decide, by decide⟩

/-- C5 (amended): the feature word of the VirtioNet device that lib.rs
instantiates contains exactly the bits VERSION_1, NET_F_CSUM,
NET_F_GUEST_CSUM, NET_F_HOST_TSO4, NET_F_HOST_TSO6, NET_F_HOST_UFO,
NET_F_GUEST_TSO4, NET_F_GUEST_TSO6 and NET_F_GUEST_UFO; RING_EVENT_IDX and
IN_ORDER appear only in the unused duplicate Net::new of devices/net.rs. -/
theorem virtio_features_exact_bits (b : Nat) :
    (Nat.testBit VIRTIO_FEATURES b = true ↔ b ∈ [0, 1, 7, 8, 10, 11, 12, 14, 32]) ∧
    Nat.testBit net_rs_device_features VIRTIO_F_RING_EVENT_IDX = true ∧
    Nat.testBit net_rs_device_features VIRTIO_F_IN_ORDER = true := by
  refine ⟨?_, by decide, by decide⟩
  by_cases hb : b < 36
  · interval_cases b <;> decide
  · have hlt : VIRTIO_FEATURES < 2 ^ b := by
      calc VIRTIO_FEATURES < 2 ^ 36 := by decide
        _ ≤ 2 ^ b := Nat.pow_le_pow_right (by omega) (by omega)
    rw [Nat.testBit_lt_two_pow hlt]
    constructor
    · intro hfalse
      exact absurd hfalse (by decide)
    · intro hmem
      fin_cases hmem <;> omega

/-- Witness for C5 at b = 32 (VERSION_1). -/
theorem virtio_features_exact_bits_witness :
    (Nat.testBit VIRTIO_FEATURES 32 = true ↔ 32 ∈ [0, 1, 7, 8, 10, 11, 12, 14, 32]) ∧
    Nat.testBit net_rs_device_features VIRTIO_F_RING_EVENT_IDX = true ∧
    Nat.testBit net_rs_device_features VIRTIO_F_IN_ORDER = true :=
  virtio_features_exact_bits 32

/- ------------------------------------------------------------------
   Virtio MMIO dispatch and the device-specific config area
   (src/src/vmm/src/devices/net/mod.rs)
   ------------------------------------------------------------------ -/

/-- vm-device VirtioMmioOffset: either an offset into the device-specific
configuration area, or any other (general register) offset; the source only
distinguishes the DeviceSpecific variant, so all remaining variants are
collapsed into one constructor. -/
inductive VirtioMmioOffset
  | DeviceSpecific (offset : Nat)
  | GeneralRegister (offset : Nat)
  deriving DecidableEq, Repr

/-- virtio_net::virtio_net_config (virtio-bindings crate): mac[6], status
u16, max_virtqueue_pairs u16, mtu u16, speed u32, duplex u8. -/
structure VirtioNetConfigSpace where
  mac : List Nat
  status : Nat
  max_virtqueue_pairs : Nat
  mtu : Nat
  speed : Nat
  duplex : Nat
  deriving DecidableEq, Repr

/-- Little-endian byte list of the given width for to_le_bytes. -/
def leBytes (width value : Nat) : List Nat :=
  (List.range width).map (fun i => value / 256 ^ i % 256)

/-- VirtioNet::config_vec (devices/net/mod.rs): serialize the config struct
by concatenating mac and the little-endian bytes of the scalar fields. -/
def config_vec (c : VirtioNetConfigSpace) : List Nat :=
  c.mac ++ leBytes 2 c.status ++ leBytes 2 c.max_virtqueue_pairs
    ++ leBytes 2 c.mtu ++ leBytes 4 c.speed ++ leBytes 1 c.duplex

/-- virtio_net_config::default(): all fields zero, mac of 6 zero bytes. -/
def virtioNetConfigDefault : VirtioNetConfigSpace :=
  { mac := List.replicate 6 0, status := 0, max_virtqueue_pairs := 0,
    mtu := 0, speed := 0, duplex := 0 }

/-- Length of the config space VirtioNet::new installs:
config_vec(virtio_net_config::default()).len(). -/
def config_space_len : Nat := (config_vec virtioNetConfigDefault).length

/-- Bitwise complement on a 64-bit usize, as Nat. -/
def usizeNot (n : Nat) : Nat := (USIZE_MOD - 1) - n % USIZE_MOD

/-- VirtioNet::is_reading_register (devices/net/mod.rs).  The source tests
«!(*offset as usize) < self.device_config.config_space.len() * 8»; the Rust
! on an integer is the bitwise complement, so the guard compares the
complement of the offset with eight times the config-space length.  Every
non-DeviceSpecific offset yields true. -/
def is_reading_register (cfg_len : Nat) : VirtioMmioOffset → Bool
  | .DeviceSpecific o => decide (usizeNot o < cfg_len * 8)
  | .GeneralRegister _ => true

/-- VirtioNet::virtio_mmio_read (devices/net/mod.rs): forward to the
VirtioMmioDevice register handler only when is_reading_register holds,
otherwise leave the output buffer untouched.  The handler (self.read of the
external virtio-device crate) is a parameter. -/
def virtio_mmio_read (cfg_len : Nat) (handler : VirtioMmioOffset → List Nat → List Nat)
    (off : VirtioMmioOffset) (data : List Nat) : List Nat :=
  if is_reading_register cfg_len off then handler off data else data

/-- VirtioNet::virtio_mmio_write (devices/net/mod.rs): forward to the
VirtioMmioDevice register handler (self.write, a state transformer over the
device state σ) only when is_reading_register holds, otherwise drop the
write. -/
def virtio_mmio_write {σ : Type} (cfg_len : Nat) (handler : VirtioMmioOffset → σ → σ)
    (off : VirtioMmioOffset) (s : σ) : σ :=
  if is_reading_register cfg_len off then handler off s else s

/-- C10 (confirmed): the config space is 17 bytes long; a DeviceSpecific
offset is forwarded exactly when the 64-bit complement of the offset is
below 8 * 17 = 136, i.e. only for the astronomically large offsets at the
very top of the u64 range; hence every device-specific access at an offset
below 2^64 - 136 is dropped (reads leave the buffer unchanged, writes leave
the device state unchanged), while general register offsets are always
forwarded. -/
theorem virtio_mmio_config_space_unreachable (o : Nat) (ho : o < USIZE_MOD) :
    config_space_len = 17 ∧
    (is_reading_register config_space_len (VirtioMmioOffset.DeviceSpecific o) = true ↔
      USIZE_MOD - 136 ≤ o) ∧
    (o < USIZE_MOD - 136 →
      ∀ handler data,
        virtio_mmio_read config_space_len handler (VirtioMmioOffset.DeviceSpecific o) data =
          data) ∧
    (o < USIZE_MOD - 136 →
      ∀ (σ : Type) (handler : VirtioMmioOffset → σ → σ) (s : σ),
        virtio_mmio_write config_space_len handler (VirtioMmioOffset.DeviceSpecific o) s = s) ∧
    (∀ r handler data,
      virtio_mmio_read config_space_len handler (VirtioMmioOffset.GeneralRegister r) data =
        handler (VirtioMmioOffset.GeneralRegister r) data) ∧
    (∀ (r : Nat) (σ : Type) (handler : VirtioMmioOffset → σ → σ) (s : σ),
      virtio_mmio_write config_space_len handler (VirtioMmioOffset.GeneralRegister r) s =
        handler (VirtioMmioOffset.GeneralRegister r) s) := by
  have hlen : config_space_len = 17 := by rfl
  have hmod : o % USIZE_MOD = o := Nat.mod_eq_of_lt ho
  have hguard : is_reading_register config_space_len (VirtioMmioOffset.DeviceSpecific o) = true ↔
      USIZE_MOD - 136 ≤ o := by
    simp only [is_reading_register, hlen, usizeNot, hmod, decide_eq_true_eq]
    unfold USIZE_MOD
    omega
  refine ⟨hlen, hguard, ?_, ?_, ?_, ?_⟩
  · intro hsmall handler data
    unfold virtio_mmio_read
    rw [if_neg]
    intro htrue
    have := hguard.mp htrue
    omega
  · intro hsmall σ handler st
    unfold virtio_mmio_write
    rw [if_neg]
    intro htrue
    have := hguard.mp htrue
    omega
  · intro r handler data
    unfold virtio_mmio_read
    rw [if_pos]
    rfl
  · intro r σ handler st
    unfold virtio_mmio_write
    rw [if_pos]
    rfl

/-- Witness for C10 at offset 0 (the first device-specific config byte,
e.g. mac[0]): the access is dropped. -/
theorem virtio_mmio_config_space_unreachable_witness :
    0 < USIZE_MOD ∧
    (config_space_len = 17 ∧
     (is_reading_register config_space_len (VirtioMmioOffset.DeviceSpecific 0) = true ↔
       USIZE_MOD - 136 ≤ 0) ∧
     (0 < USIZE_MOD - 136 →
       ∀ handler data,
         virtio_mmio_read config_space_len handler (VirtioMmioOffset.DeviceSpecific 0) data =
           data) ∧
     (0 < USIZE_MOD - 136 →
       ∀ (σ : Type) (handler : VirtioMmioOffset → σ → σ) (s : σ),
         virtio_mmio_write config_space_len handler (VirtioMmioOffset.DeviceSpecific 0) s = s) ∧
     (∀ r handler data,
       virtio_mmio_read config_space_len handler (VirtioMmioOffset.GeneralRegister r) data =
         handler (VirtioMmioOffset.GeneralRegister r) data) ∧
     (∀ (r : Nat) (σ : Type) (handler : VirtioMmioOffset → σ → σ) (s : σ),
       virtio_mmio_write config_space_len handler (VirtioMmioOffset.GeneralRegister r) s =
         handler (VirtioMmioOffset.GeneralRegister r) s)) :=
  ⟨by decide, virtio_mmio_config_space_unreachable 0 (by decide)⟩

/- ------------------------------------------------------------------
   vCPU exit-loop dispatch (src/src/vmm/src/cpu/mod.rs, Vcpu::run)
   ------------------------------------------------------------------ -/

/-- SERIAL_PORT_BASE (devices/serial.rs). -/
def SERIAL_PORT_BASE : Nat := 0x3f8

/-- Modelled from the spec: SERIAL_PORT_LAST_REGISTER is imported by
cpu/mod.rs from devices::serial but its defining line is not under src/;
the spec gives the serial port range as [0x3F8, 0x3FF] (8 registers). -/
def SERIAL_PORT_LAST_REGISTER : Nat := 0x3ff

/-- The KVM exit reasons Vcpu::run distinguishes.  A PIO exit carries a
data slice of which only data[0] is used, so the model carries that first
byte (KVM always supplies at least one byte). -/
inductive VcpuExitReason
  | Shutdown
  | Hlt
  | IoOut (port : Nat) (byte : Nat)
  | IoIn (port : Nat)
  | MmioWrite (addr : Nat)
  | MmioRead (addr : Nat)
  | OtherExit
  deriving DecidableEq, Repr

/-- Host-visible effects of one iteration of the Vcpu::run loop. -/
structure IterEffects where
  shutdownLogged : Bool
  socketWritten : Bool
  serialWritten : Option (Nat × Nat)
  serialReadOffset : Option Nat
  mmioWriteForwarded : Bool
  mmioReadForwarded : Bool
  unsupportedLogged : Bool
  unhandledLogged : Bool
  emulationErrorLogged : Bool
  deriving DecidableEq, Repr

/-- The empty effect record. -/
def noEffects : IterEffects :=
  { shutdownLogged := false, socketWritten := false, serialWritten := none,
    serialReadOffset := none, mmioWriteForwarded := false, mmioReadForwarded := false,
    unsupportedLogged := false, unhandledLogged := false, emulationErrorLogged := false }

/-- Results of the fallible host calls an iteration may make; these come
from the serial device, the IoManager and the control socket, all outside
the dispatch code itself. -/
structure DispatchEnv where
  socketWriteOk : Bool
  serialWriteOk : Bool
  mmioWriteOk : Bool
  mmioReadOk : Bool
  deriving DecidableEq, Repr

/-- Outcome of one iteration of the Vcpu::run loop: either the iteration
finishes and the loop re-enters vcpu_fd.run (the loop body has no break or
return), or an unwrap/expect on a failed host call aborts the vCPU
thread. -/
inductive IterOutcome
  | next (eff : IterEffects)
  | panicked (eff : IterEffects)
  deriving DecidableEq, Repr

/-- One iteration of the Vcpu::run loop (cpu/mod.rs): dispatch on the
result of vcpu_fd.run().  Shutdown and Hlt log and write one byte to the
unix control socket (unwrap); serial-range IoOut forwards to
Serial::write (unwrap); serial-range IoIn reads the register (infallible);
other ports log; MmioWrite/MmioRead forward to the IoManager (unwrap);
other exits and run errors are logged.  No branch leaves the loop. -/
def vcpuRunIter (env : DispatchEnv) (run : Except Unit VcpuExitReason) : IterOutcome :=
  match run with
  | .error _ => .next { noEffects with emulationErrorLogged := true }
  | .ok exitReason =>
    match exitReason with
    | .Shutdown =>
      if env.socketWriteOk then
        .next { noEffects with shutdownLogged := true, socketWritten := true }
      else
        .panicked { noEffects with shutdownLogged := true }
    | .Hlt =>
      if env.socketWriteOk then
        .next { noEffects with shutdownLogged := true, socketWritten := true }
      else
        .panicked { noEffects with shutdownLogged := true }
    | .IoOut port byte =>
      if SERIAL_PORT_BASE ≤ port ∧ port ≤ SERIAL_PORT_LAST_REGISTER then
        if env.serialWriteOk then
          .next { noEffects with serialWritten := some (port - SERIAL_PORT_BASE, byte) }
        else
          .panicked noEffects
      else
        .next { noEffects with unsupportedLogged := true }
    | .IoIn port =>
      if SERIAL_PORT_BASE ≤ port ∧ port ≤ SERIAL_PORT_LAST_REGISTER then
        .next { noEffects with serialReadOffset := some (port - SERIAL_PORT_BASE) }
      else
        .next { noEffects with unsupportedLogged := true }
    | .MmioWrite _ =>
      if env.mmioWriteOk then
        .next { noEffects with mmioWriteForwarded := true }
      else
        .panicked noEffects
    | .MmioRead _ =>
      if env.mmioReadOk then
        .next { noEffects with mmioReadForwarded := true }
      else
        .panicked noEffects
    | .OtherExit => .next { noEffects with unhandledLogged := true }

/- ------------------------------------------------------------------
   Virtio-net TX and RX processing as event traces
   (src/src/vmm/src/devices/net/mod.rs)
   ------------------------------------------------------------------ -/

/-- Modelled from the spec: bindings::VIRTIO_HDR_LEN lives in
devices/net/bindings.rs, which is not under src/; the spec fixes the
virtio-net header to 12 bytes (TUNSETVNETHDRSZ = 12). -/
def VIRTIO_HDR_LEN : Nat := 12

/-- Externally visible actions of the virtio-net queue paths, in program
order: a write of a packet to the TAP fd, an append to a used ring, a store
to the interrupt status, a write to the guest irq eventfd. -/
inductive NetEvent
  | tapWrite (len : Nat)
  | addUsed (head : Nat) (len : Nat)
  | setInterruptStatus (v : Nat)
  | irqWrite
  deriving DecidableEq, Repr

/-- One available TX descriptor chain together with the results of the
external calls made while processing it: the guest-memory read of each
descriptor (mem.read_slice, unwrapped by the source), whether the TAP write
succeeds, whether Queue::add_used succeeds, and what
Queue::needs_notification returns afterwards. -/
structure TxChainEnv where
  headIndex : Nat
  descReads : List (Except Unit (List Nat))
  tapWriteOk : Bool
  addUsedOk : Bool
  needsNotif : Bool

/-- Coalescing of the descriptor reads into data_buffer: the for_each in
queue_notify resizes the buffer by each descriptor length and reads the
descriptor bytes into it, unwrapping each read; the first failing read
aborts the thread. -/
def concatReads : List (Except Unit (List Nat)) → Except Unit (List Nat)
  | [] => .ok []
  | r :: rs =>
    match r with
    | .error e => .error e
    | .ok bytes =>
      match concatReads rs with
      | .error e => .error e
      | .ok rest => .ok (bytes ++ rest)

/-- How processing one TX chain ends: proceed to the next chain, return
from queue_notify early (short packet), or abort the thread (unwrap on a
guest-memory read). -/
inductive ChainRes
  | chainOk
  | chainRet
  | chainAbort
  deriving DecidableEq, Repr

/-- Processing of one TX chain in queue_notify (devices/net/mod.rs):
coalesce the descriptors (read_slice unwrap), return early when the buffer
is shorter than the virtio-net header, otherwise write the buffer to the
TAP fd; on success append (head_index, 0x100) to the used ring (failure
only logged) and, when needs_notification holds, write the irq eventfd
(failure only logged); on TAP failure log and continue.  No interrupt
status store appears on this path. -/
def processTxChain (c : TxChainEnv) : List NetEvent × ChainRes :=
  match concatReads c.descReads with
  | .error _ => ([], ChainRes.chainAbort)
  | .ok buf =>
    if buf.length < VIRTIO_HDR_LEN then
      ([], ChainRes.chainRet)
    else
      if c.tapWriteOk then
        (NetEvent.tapWrite buf.length ::
          ((if c.addUsedOk then [NetEvent.addUsed c.headIndex 0x100] else []) ++
            (if c.needsNotif then [NetEvent.irqWrite] else [])),
          ChainRes.chainOk)
      else
        ([NetEvent.tapWrite buf.length], ChainRes.chainOk)

/-- How a drain pass of queue_notify ends. -/
inductive RoundOutcome
  | roundDone
  | roundReturn
  | roundAbort
  deriving DecidableEq, Repr

/-- The while-let drain over the available TX chains in queue_notify:
process chains in order, stopping at an early return or a thread abort. -/
def queueNotifyRound : List TxChainEnv → List NetEvent × RoundOutcome
  | [] => ([], RoundOutcome.roundDone)
  | c :: cs =>
    match processTxChain c with
    | (evs, ChainRes.chainOk) =>
      match queueNotifyRound cs with
      | (evs2, out) => (evs ++ evs2, out)
    | (evs, ChainRes.chainRet) => (evs, RoundOutcome.roundReturn)
    | (evs, ChainRes.chainAbort) => (evs, RoundOutcome.roundAbort)

/-- VirtioNet::queue_notify (devices/net/mod.rs): ignore value 0, otherwise
drain the available TX chains.  disable_notification and
enable_notification are queue-suppression state updates in the external
virtio-queue crate and emit none of the modelled events; a further pass of
the outer loop processes chains that became available meanwhile in exactly
the same way, so the model covers one drain pass over the chains the
queue iterator yields. -/
def queue_notify (val : Nat) (chains : List TxChainEnv) : List NetEvent × RoundOutcome :=
  if val = 0 then ([], RoundOutcome.roundDone) else queueNotifyRound chains

/-- One descriptor of an RX chain: its length and whether the guest-memory
write into it succeeds. -/
structure RxDescEnv where
  len : Nat
  writeOk : Bool

/-- One available RX chain: its head index, its descriptors, and whether
Queue::add_used succeeds for it. -/
structure RxChainEnv where
  headIndex : Nat
  descs : List RxDescEnv
  addUsedOk : Bool

/-- One iteration of the process_tap read loop: the result of the TAP read
(the frame size, or an error that breaks the loop), the RX chain the queue
iterator yields (none when the queue is empty), and the result of
Queue::enable_notification when consulted. -/
structure RxStepEnv where
  readResult : Except Unit Nat
  chain : Option RxChainEnv
  enableNotifResult : Except Unit Bool

/-- The descriptor-filling while loop of write_frame_to_guest: walk the
chain, stopping when the frame is exhausted, writing
min(left, desc.len) bytes per descriptor (write_slice failure propagates),
and returning the total count written. -/
def writeFrameLoop (size : Nat) : List RxDescEnv → Nat → Except Unit Nat
  | [], count => .ok count
  | d :: ds, count =>
    if size - count = 0 then .ok count
    else if d.writeOk then writeFrameLoop size ds (count + min (size - count) d.len)
    else .error ()

/-- VirtioNet::write_frame_to_guest (devices/net/mod.rs): pop the next RX
chain (returning false when none is available), scatter the frame across
its descriptors, then append (head_index, count) to the used ring; a
write_slice or add_used failure propagates as an error.  The boolean
reports whether a chain was consumed. -/
def write_frame_to_guest (chain : Option RxChainEnv) (size : Nat) :
    Except Unit (List NetEvent × Bool) :=
  match chain with
  | none => .ok ([], false)
  | some c =>
    match writeFrameLoop size c.descs 0 with
    | .error e => .error e
    | .ok count =>
      if c.addUsedOk then .ok ([NetEvent.addUsed c.headIndex count], true)
      else .error ()

/-- The read loop of VirtioNet::process_tap (devices/net/mod.rs): read the
TAP fd (an error breaks the loop), hand the frame to write_frame_to_guest
(an error propagates out of process_tap), and when no chain was available
consult enable_notification (an error propagates; false breaks the loop).
An error result carries the events emitted before the failure. -/
def processTapLoop : List RxStepEnv → Except (List NetEvent) (List NetEvent)
  | [] => .ok []
  | s :: rest =>
    match s.readResult with
    | .error _ => .ok []
    | .ok size =>
      match write_frame_to_guest s.chain size with
      | .error _ => .error []
      | .ok (evs, wrote) =>
        if wrote then
          match processTapLoop rest with
          | .ok more => .ok (evs ++ more)
          | .error more => .error (evs ++ more)
        else
          match s.enableNotifResult with
          | .error _ => .error evs
          | .ok true => processTapLoop rest
          | .ok false => .ok evs

/-- VirtioNet::process_tap (devices/net/mod.rs): run the read loop; when it
completes, consult Queue::needs_notification and, if it holds, store 1 into
the interrupt status and then write the guest irq eventfd (write failure
only logged).  The boolean reports whether process_tap returned Ok; on an
error the events emitted before the failure still happened. -/
def process_tap (steps : List RxStepEnv) (needsNotifResult : Except Unit Bool) :
    List NetEvent × Bool :=
  match processTapLoop steps with
  | .error evs => (evs, false)
  | .ok evs =>
    match needsNotifResult with
    | .error _ => (evs, false)
    | .ok true => (evs ++ [NetEvent.setInterruptStatus 1, NetEvent.irqWrite], true)
    | .ok false => (evs, true)

/-- Checks, scanning left to right, that every irq eventfd write in the
trace is preceded by an interrupt-status store of 1; seen records whether
such a store has already happened. -/
def statusSetBeforeEveryIrq : List NetEvent → Bool → Bool
  | [], _ => true
  | NetEvent.setInterruptStatus v :: rest, seen =>
      statusSetBeforeEveryIrq rest (seen || v == 1)
  | NetEvent.irqWrite :: rest, seen => seen && statusSetBeforeEveryIrq rest seen
  | _ :: rest, seen => statusSetBeforeEveryIrq rest seen

/- ------------------------------------------------------------------
   Trace lemmas
   ------------------------------------------------------------------ -/

/-- Any used-ring append in the trace of one TX chain records length 0x100
and the head index of that chain. -/
theorem processTxChain_addUsed_mem (c : TxChainEnv) (hd ln : Nat)
    (hmem : NetEvent.addUsed hd ln ∈ (processTxChain c).1) :
    ln = 0x100 ∧ hd = c.headIndex := by
  unfold processTxChain at hmem
  rcases hcr : concatReads c.descReads with e | buf
  · rw [hcr] at hmem
    simp at hmem
  · rw [hcr] at hmem
    dsimp only at hmem
    by_cases hlen : buf.length < VIRTIO_HDR_LEN
    · rw [if_pos hlen] at hmem
      simp at hmem
    · rw [if_neg hlen] at hmem
      by_cases htap : c.tapWriteOk
      · rw [if_pos htap] at hmem
        simp only [List.mem_cons, List.mem_append] at hmem
        rcases hmem with h1 | h2 | h3
        · exact absurd h1 (by simp)
        · by_cases hau : c.addUsedOk
          · rw [if_pos hau] at h2
            simp at h2
            exact ⟨h2.2, h2.1⟩
          · rw [if_neg hau] at h2
            simp at h2
        · by_cases hnn : c.needsNotif
          · rw [if_pos hnn] at h3
            simp at h3
          · rw [if_neg hnn] at h3
            simp at h3
      · rw [if_neg htap] at hmem
        simp at hmem

/-- Any used-ring append in the trace of a TX drain pass records length
0x100 and the head index of one of the drained chains. -/
theorem queueNotifyRound_addUsed_mem (chains : List TxChainEnv) (hd ln : Nat)
    (hmem : NetEvent.addUsed hd ln ∈ (queueNotifyRound chains).1) :
    ln = 0x100 ∧ hd ∈ chains.map TxChainEnv.headIndex := by
  induction chains with
  | nil =>
    simp [queueNotifyRound] at hmem
  | cons c cs ih =>
    unfold queueNotifyRound at hmem
    rcases hpc : processTxChain c with ⟨evs, res⟩
    rw [hpc] at hmem
    have hc : NetEvent.addUsed hd ln ∈ evs → ln = 0x100 ∧ hd = c.headIndex := by
      intro h
      exact processTxChain_addUsed_mem c hd ln (by rw [hpc]; exact h)
    cases res with
    | chainOk =>
      rcases hqr : queueNotifyRound cs with ⟨evs2, out⟩
      rw [hqr] at hmem
      simp only [List.mem_append] at hmem
      rcases hmem with h1 | h2
      · rcases hc h1 with ⟨hl, hh⟩
        exact ⟨hl, by simp [hh]⟩
      · rcases ih (by rw [hqr]; exact h2) with ⟨hl, hh⟩
        exact ⟨hl, by simp [hh]⟩
    | chainRet =>
      rcases hc hmem with ⟨hl, hh⟩
      exact ⟨hl, by simp [hh]⟩
    | chainAbort =>
      rcases hc hmem with ⟨hl, hh⟩
      exact ⟨hl, by simp [hh]⟩

/-- The events of a processTapLoop result, whether it completed or
propagated an error. -/
def eventsOf : Except (List NetEvent) (List NetEvent) → List NetEvent
  | .ok evs => evs
  | .error evs => evs

/-- write_frame_to_guest emits only used-ring appends. -/
theorem write_frame_to_guest_only_addUsed (chain : Option RxChainEnv) (size : Nat)
    (evs : List NetEvent) (wrote : Bool)
    (h : write_frame_to_guest chain size = Except.ok (evs, wrote)) :
    ∀ e ∈ evs, ∃ hd ln, e = NetEvent.addUsed hd ln := by
  unfold write_frame_to_guest at h
  rcases chain with _ | c
  · dsimp only at h
    have hevs : evs = [] := by
      injection h with h1
      exact (congrArg Prod.fst h1).symm
    simp [hevs]
  · dsimp only at h
    rcases hwf : writeFrameLoop size c.descs 0 with e0 | count
    · rw [hwf] at h
      simp at h
    · rw [hwf] at h
      dsimp only at h
      by_cases hau : c.addUsedOk
      · rw [if_pos hau] at h
        have hevs : evs = [NetEvent.addUsed c.headIndex count] := by
          injection h with h1
          exact (congrArg Prod.fst h1).symm
        intro e he
        rw [hevs] at he
        simp at he
        exact ⟨c.headIndex, count, he⟩
      · rw [if_neg hau] at h
        simp at h

/-- The TAP read loop of process_tap emits only used-ring appends. -/
theorem processTapLoop_only_addUsed (steps : List RxStepEnv) :
    ∀ e ∈ eventsOf (processTapLoop steps), ∃ hd ln, e = NetEvent.addUsed hd ln := by
  induction steps with
  | nil =>
    simp [processTapLoop, eventsOf]
  | cons st rest ih =>
    unfold processTapLoop
    rcases hrr : st.readResult with e0 | size
    · dsimp only
      simp [eventsOf]
    · dsimp only
      rcases hwf : write_frame_to_guest st.chain size with e1 | p
      · dsimp only
        simp [eventsOf]
      · rcases p with ⟨evs, wrote⟩
        dsimp only
        have hevs := write_frame_to_guest_only_addUsed st.chain size evs wrote hwf
        cases wrote with
        | true =>
          rw [if_pos rfl]
          rcases hloop : processTapLoop rest with more | more
          · dsimp only
            intro e he
            simp only [eventsOf, List.mem_append] at he
            rcases he with h1 | h2
            · exact hevs e h1
            · refine ih e ?_
              rw [hloop]
              exact h2
          · dsimp only
            intro e he
            simp only [eventsOf, List.mem_append] at he
            rcases he with h1 | h2
            · exact hevs e h1
            · refine ih e ?_
              rw [hloop]
              exact h2
        | false =>
          rw [if_neg (by simp)]
          rcases hen : st.enableNotifResult with e2 | b
          · dsimp only
            intro e he
            simp only [eventsOf] at he
            exact hevs e he
          · cases b with
            | true => exact ih
            | false =>
              dsimp only
              intro e he
              simp only [eventsOf] at he
              exact hevs e he

/-- A trace of used-ring appends followed by the status store and the irq
kick passes the status-before-irq check, and so does the bare append
trace. -/
theorem statusBeforeIrq_of_only_addUsed (l : List NetEvent) (seen : Bool)
    (h : ∀ e ∈ l, ∃ hd ln, e = NetEvent.addUsed hd ln) :
    statusSetBeforeEveryIrq (l ++ [NetEvent.setInterruptStatus 1, NetEvent.irqWrite]) seen = true ∧
    statusSetBeforeEveryIrq l seen = true := by
  induction l generalizing seen with
  | nil =>
    simp [statusSetBeforeEveryIrq]
  | cons e rest ih =>
    rcases h e (by simp) with ⟨hd, ln, he⟩
    subst he
    have hrest : ∀ x ∈ rest, ∃ hd ln, x = NetEvent.addUsed hd ln := by
      intro x hx
      exact h x (by simp [hx])
    simpa [statusSetBeforeEveryIrq] using ih seen hrest

/-- The status-before-irq discipline holds on the RX path: any irq eventfd
write process_tap performs is preceded by the interrupt-status store of 1,
the read loop itself emitting only used-ring appends. -/
theorem rx_status_before_irq (steps : List RxStepEnv) (nn : Except Unit Bool) :
    statusSetBeforeEveryIrq (process_tap steps nn).1 false = true := by
  unfold process_tap
  rcases hloop : processTapLoop steps with evs | evs
  · dsimp only
    have honly : ∀ e ∈ evs, ∃ hd ln, e = NetEvent.addUsed hd ln := by
      intro e he
      refine processTapLoop_only_addUsed steps e ?_
      rw [hloop]
      exact he
    exact (statusBeforeIrq_of_only_addUsed evs false honly).2
  · dsimp only
    have honly : ∀ e ∈ evs, ∃ hd ln, e = NetEvent.addUsed hd ln := by
      intro e he
      refine processTapLoop_only_addUsed steps e ?_
      rw [hloop]
      exact he
    rcases nn with e2 | b
    · exact (statusBeforeIrq_of_only_addUsed evs false honly).2
    · cases b with
      | true => exact (statusBeforeIrq_of_only_addUsed evs false honly).1
      | false => exact (statusBeforeIrq_of_only_addUsed evs false honly).2

/- ------------------------------------------------------------------
   Claim C1: error handling in the exit loop and the virtio paths
   ------------------------------------------------------------------ -/

/-- C1 (counterexample): a failing serial register write in the exit-loop
dispatch is unwrapped, so the iteration does not resume: the vCPU thread
panicks on a guest-triggered IoOut to port 0x3F8 whose Serial::write
fails. -/
theorem serial_write_error_panics :
    vcpuRunIter ⟨true, false, true, true⟩ (Except.ok (VcpuExitReason.IoOut 0x3f8 65)) =
      IterOutcome.panicked noEffects := by rfl

/-- C1 (amended): errors returned by the KVM run call itself are logged and
the iteration resumes, and a TAP write failure on the TX path is logged
with processing continuing; but a failing serial register write and a
failing MMIO dispatch (read or write) abort the vCPU thread through
unwrap, as does a failing guest-memory descriptor read while coalescing a
TX chain. -/
theorem runtime_error_paths (env : DispatchEnv) (p b a hd : Nat) (bytes : List Nat)
    (au nn : Bool) (hp1 : SERIAL_PORT_BASE ≤ p) (hp2 : p ≤ SERIAL_PORT_LAST_REGISTER) :
    vcpuRunIter env (Except.error ()) =
      IterOutcome.next { noEffects with emulationErrorLogged := true } ∧
    (env.serialWriteOk = false →
      vcpuRunIter env (Except.ok (VcpuExitReason.IoOut p b)) = IterOutcome.panicked noEffects) ∧
    (env.mmioWriteOk = false →
      vcpuRunIter env (Except.ok (VcpuExitReason.MmioWrite a)) = IterOutcome.panicked noEffects) ∧
    (env.mmioReadOk = false →
      vcpuRunIter env (Except.ok (VcpuExitReason.MmioRead a)) = IterOutcome.panicked noEffects) ∧
    (VIRTIO_HDR_LEN ≤ bytes.length →
      processTxChain ⟨hd, [Except.ok bytes], false, au, nn⟩ =
        ([NetEvent.tapWrite bytes.length], ChainRes.chainOk)) ∧
    processTxChain ⟨hd, [Except.error ()], au, au, nn⟩ = ([], ChainRes.chainAbort) := by
  refine ⟨rfl, ?_, ?_, ?_, ?_, rfl⟩
  · intro h
    simp [vcpuRunIter, hp1, hp2, h]
  · intro h
    simp [vcpuRunIter, h]
  · intro h
    simp [vcpuRunIter, h]
  · intro h
    unfold processTxChain
    have hc : concatReads [Except.ok bytes] = Except.ok (bytes ++ []) := rfl
    rw [hc]
    dsimp only
    rw [List.append_nil]
    rw [if_neg (by omega)]
    rfl

/-- Witness for C1 at port 0x3F9 with all fallible host calls failing and a
13-byte TX packet. -/
theorem runtime_error_paths_witness :
    SERIAL_PORT_BASE ≤ 0x3f9 ∧ 0x3f9 ≤ SERIAL_PORT_LAST_REGISTER ∧
    (vcpuRunIter ⟨true, false, false, false⟩ (Except.error ()) =
       IterOutcome.next { noEffects with emulationErrorLogged := true } ∧
     ((⟨true, false, false, false⟩ : DispatchEnv).serialWriteOk = false →
       vcpuRunIter ⟨true, false, false, false⟩ (Except.ok (VcpuExitReason.IoOut 0x3f9 7)) =
         IterOutcome.panicked noEffects) ∧
     ((⟨true, false, false, false⟩ : DispatchEnv).mmioWriteOk = false →
       vcpuRunIter ⟨true, false, false, false⟩ (Except.ok (VcpuExitReason.MmioWrite 77)) =
         IterOutcome.panicked noEffects) ∧
     ((⟨true, false, false, false⟩ : DispatchEnv).mmioReadOk = false →
       vcpuRunIter ⟨true, false, false, false⟩ (Except.ok (VcpuExitReason.MmioRead 77)) =
         IterOutcome.panicked noEffects) ∧
     (VIRTIO_HDR_LEN ≤ (List.replicate 13 1).length →
       processTxChain ⟨4, [Except.ok (List.replicate 13 1)], false, true, true⟩ =
         ([NetEvent.tapWrite (List.replicate 13 1).length], ChainRes.chainOk)) ∧
     processTxChain ⟨4, [Except.error ()], true, true, true⟩ = ([], ChainRes.chainAbort)) :=
  ⟨by decide, by decide,
   runtime_error_paths ⟨true, false, false, false⟩ 0x3f9 7 77 4 (List.replicate 13 1)
     true true (by decide) (by decide)⟩

/- ------------------------------------------------------------------
   Claim C2: behaviour of the exit loop on Hlt and Shutdown
   ------------------------------------------------------------------ -/

/-- C2 (counterexample): on Hlt (and Shutdown) the iteration outcome is
next, i.e. the Vcpu::run loop body falls through and the loop re-enters
KVM; there is no Terminated transition and the thread does not exit the
loop, contrary to the claim. -/
theorem hlt_does_not_terminate_loop :
    vcpuRunIter ⟨true, true, true, true⟩ (Except.ok VcpuExitReason.Hlt) =
      IterOutcome.next { noEffects with shutdownLogged := true, socketWritten := true } ∧
    vcpuRunIter ⟨true, true, true, true⟩ (Except.ok VcpuExitReason.Shutdown) =
      IterOutcome.next { noEffects with shutdownLogged := true, socketWritten := true } := by
  exact ⟨rfl, rfl⟩

/-- C2 (amended): on a Hlt or Shutdown exit the vCPU logs the shutdown and
writes one byte to the VMM unix control socket (unwrapping that write),
after which the iteration ends normally and the loop re-enters KVM; the
loop has no exit path. -/
theorem hlt_shutdown_logs_and_reenters (env : DispatchEnv)
    (h : env.socketWriteOk = true) :
    vcpuRunIter env (Except.ok VcpuExitReason.Hlt) =
      IterOutcome.next { noEffects with shutdownLogged := true, socketWritten := true } ∧
    vcpuRunIter env (Except.ok VcpuExitReason.Shutdown) =
      IterOutcome.next { noEffects with shutdownLogged := true, socketWritten := true } := by
  simp [vcpuRunIter, h]

/-- Witness for C2 with a socket whose write succeeds and other host calls
failing. -/
theorem hlt_shutdown_logs_and_reenters_witness :
    (⟨true, false, false, false⟩ : DispatchEnv).socketWriteOk = true ∧
    (vcpuRunIter ⟨true, false, false, false⟩ (Except.ok VcpuExitReason.Hlt) =
       IterOutcome.next { noEffects with shutdownLogged := true, socketWritten := true } ∧
     vcpuRunIter ⟨true, false, false, false⟩ (Except.ok VcpuExitReason.Shutdown) =
       IterOutcome.next { noEffects with shutdownLogged := true, socketWritten := true }) :=
  ⟨rfl, hlt_shutdown_logs_and_reenters ⟨true, false, false, false⟩ rfl⟩

/- ------------------------------------------------------------------
   Claim C6: the length recorded in TX used-ring entries
   ------------------------------------------------------------------ -/

/-- C6 (counterexample): after a TX chain of head index 5 is written to the
TAP fd, the used ring receives the entry (5, 0x100), and the entry (5, 0)
the claim describes is never appended. -/
theorem tx_used_entry_not_zero :
    (queue_notify 1 [⟨5, [Except.ok (List.replicate 12 0)], true, true, false⟩]).1 =
      [NetEvent.tapWrite 12, NetEvent.addUsed 5 0x100] ∧
    NetEvent.addUsed 5 0 ∉
      (queue_notify 1 [⟨5, [Except.ok (List.replicate 12 0)], true, true, false⟩]).1 := by
  refine ⟨by rfl, by decide⟩

/-- C6 (amended): every used-ring entry appended on the TX path records the
written length 0x100 (256), not 0, together with the head index of one of
the drained chains. -/
theorem tx_used_entries_record_0x100 (val : Nat) (chains : List TxChainEnv) (hd ln : Nat)
    (hmem : NetEvent.addUsed hd ln ∈ (queue_notify val chains).1) :
    ln = 0x100 ∧ hd ∈ chains.map TxChainEnv.headIndex := by
  unfold queue_notify at hmem
  by_cases hv : val = 0
  · rw [if_pos hv] at hmem
    simp at hmem
  · rw [if_neg hv] at hmem
    exact queueNotifyRound_addUsed_mem chains hd ln hmem

/-- Witness for C6 on a drained chain of head index 7. -/
theorem tx_used_entries_record_0x100_witness :
    NetEvent.addUsed 7 0x100 ∈
      (queue_notify 1 [⟨7, [Except.ok (List.replicate 12 1)], true, true, false⟩]).1 ∧
    ((0x100 : Nat) = 0x100 ∧
      7 ∈ ([⟨7, [Except.ok (List.replicate 12 1)], true, true, false⟩] :
        List TxChainEnv).map TxChainEnv.headIndex) :=
  ⟨by decide,
   tx_used_entries_record_0x100 1 [⟨7, [Except.ok (List.replicate 12 1)], true, true, false⟩]
     7 0x100 (by decide)⟩

/- ------------------------------------------------------------------
   Claim C7: interrupt-status store before the irq eventfd write
   ------------------------------------------------------------------ -/

/-- C7: on the RX path every irq eventfd write of process_tap is indeed
preceded by the interrupt-status store of 1 (with the used-ring appends
before it), but on the TX path queue_notify kicks the irq eventfd with no
interrupt-status store at all: at the failing input of one 12-byte chain
with needs_notification true, the trace ends in irqWrite and passes no
status-before-irq check. -/
theorem tx_irq_kick_without_status :
    (∀ steps nn, statusSetBeforeEveryIrq (process_tap steps nn).1 false = true) ∧
    (queue_notify 1 [⟨3, [Except.ok (List.replicate 12 0)], true, true, true⟩]).1 =
      [NetEvent.tapWrite 12, NetEvent.addUsed 3 0x100, NetEvent.irqWrite] ∧
    statusSetBeforeEveryIrq
      (queue_notify 1 [⟨3, [Except.ok (List.replicate 12 0)], true, true, true⟩]).1 false =
      false := by
  refine ⟨rx_status_before_irq, by rfl, by rfl⟩

end Lumper
